import Mathlib

/-!
Verification of the hostpathcsi driver (pkg/hostpathcsi/controller.go,
pkg/hostpathcsi/node.go) against its natural-language specification.

The Go handlers are shallowly embedded as pure functions over an explicit
host-filesystem state.  The filesystem is an association list from paths
(lists of components) to entries (directory, regular file, or symbolic
link).  Paths appear in the Go source as slash-separated strings built by
string concatenation; `parsePath` performs the component split that the
OS path resolution applies (empty components, i.e. repeated or trailing
slashes, are ignored, as the kernel does for these simple absolute paths).

The primitive filesystem operations mirror the `os` package functions the
handlers call: `stat` (follows symlinks, with fuel bounding chain length;
exhaustion models ELOOP as a non-not-exist error), `lstat` (no
following), `mkdirAll` (Go's os.MkdirAll recursion: stat the path, stop
if it is a directory, fail if it exists as a non-directory, otherwise
ensure the parent then create), `removeAll` (removes the entry and
everything under it; os.RemoveAll on a missing path is a success), and
`mkSymlink` (os.Symlink, failing if the target name already exists).
I/O faults (permissions, disk full) are not injected: the model is the
fault-free execution of the syscalls, which is the semantics the claims
quantify over.
-/

namespace HostPathCSI

/-- A filesystem entry: directory, regular file, or symbolic link storing
its raw target string (as `os.Symlink` stores `oldname`). -/
inductive Entry where
  | dir
  | file
  | symlink (target : String)
deriving DecidableEq, Repr

/-- A path, as the list of its slash-separated components. -/
abbrev Path := List String

/-- Host filesystem state: association list from paths to entries.  The
root `[]` is an implicit, always-existing directory. -/
abbrev FS := List (Path × Entry)

/-- Split a character list on slash characters, dropping empty components
(leading, trailing, or repeated slashes), accumulating the current
component in reverse in `acc`. -/
def splitSlashAux : List Char → List Char → List String
  | [], acc => if acc.isEmpty then [] else [String.mk acc.reverse]
  | c :: cs, acc =>
    if c = '/' then
      (if acc.isEmpty then [] else [String.mk acc.reverse]) ++ splitSlashAux cs []
    else
      splitSlashAux cs (c :: acc)

/-- Parse a slash-separated path string into its components, as OS path
resolution does for the absolute paths this driver builds. -/
def parsePath (s : String) : Path :=
  splitSlashAux s.data []

/-- Look up the entry stored at a path (first match in the association
list).  This is the `os.Lstat` level view: symlinks are not followed. -/
def fsLookup (fs : FS) (p : Path) : Option Entry :=
  match fs with
  | [] => none
  | (q, e) :: rest => if q = p then some e else fsLookup rest p

/-- Number of association-list entries stored under exactly the key `p`
(a well-formed filesystem has at most one). -/
def countKey (fs : FS) (p : Path) : Nat :=
  fs.countP (fun pe => pe.1 = p)

/-- Result of a `stat` call: an entry was found (after following links),
the path does not exist (ENOENT, what `os.IsNotExist` recognises), or
another error (e.g. ELOOP from a symlink cycle). -/
inductive StatRes where
  | found (e : Entry)
  | notExist
  | errOther
deriving DecidableEq, Repr

/-- `os.Stat` with explicit fuel for following symbolic links; fuel
exhaustion models ELOOP.  The root `[]` always exists as a directory. -/
def statFuel (fs : FS) (p : Path) : Nat → StatRes
  | 0 => StatRes.errOther
  | fuel + 1 =>
    if p = [] then StatRes.found Entry.dir
    else
      match fsLookup fs p with
      | none => StatRes.notExist
      | some Entry.dir => StatRes.found Entry.dir
      | some Entry.file => StatRes.found Entry.file
      | some (Entry.symlink t) => statFuel fs (parsePath t) fuel

/-- `os.Stat`: follow symlinks; `fs.length + 1` fuel suffices for any
non-cyclic chain, and a cycle yields `errOther` (ELOOP). -/
def stat (fs : FS) (p : Path) : StatRes :=
  statFuel fs p (fs.length + 1)

/-- `os.Lstat` in the fault-free model: the raw entry, `none` = ENOENT. -/
def lstat (fs : FS) (p : Path) : Option Entry :=
  fsLookup fs p

/-- `os.MkdirAll`, with fuel (one unit per path component): stat the
path; an existing directory is success, an existing non-directory is
ENOTDIR; otherwise recursively ensure the parent, then create the
directory.  On error nothing has been created, as in Go, where the
recursion fails at the offending ancestor before any mkdir runs. -/
def mkdirAllFuel : Nat → FS → Path → Except String FS
  | 0, fs, p =>
    match stat fs p with
    | StatRes.found Entry.dir => Except.ok fs
    | StatRes.found _ => Except.error "mkdir: not a directory"
    | _ => Except.error "mkdir: out of fuel"
  | fuel + 1, fs, p =>
    match stat fs p with
    | StatRes.found Entry.dir => Except.ok fs
    | StatRes.found _ => Except.error "mkdir: not a directory"
    | _ =>
      match p with
      | [] => Except.error "mkdir: no such file or directory"
      | _ :: _ =>
        match mkdirAllFuel fuel fs p.dropLast with
        | Except.error e => Except.error e
        | Except.ok fs1 => Except.ok ((p, Entry.dir) :: fs1)

/-- `os.MkdirAll`; recursion depth is bounded by the component count. -/
def mkdirAll (fs : FS) (p : Path) : Except String FS :=
  mkdirAllFuel p.length fs p

/-- `os.RemoveAll`: removes the entry at `p` and every entry below it;
removing a non-existent path is a no-op success (Go returns nil). -/
def removeAll (fs : FS) (p : Path) : FS :=
  fs.filter (fun pe => !p.isPrefixOf pe.1)

/-- `os.Symlink source target`: fails with EEXIST if the target name
already exists (at the lstat level), otherwise records the link with its
raw `source` string. -/
def mkSymlink (fs : FS) (source : String) (target : Path) : Except String FS :=
  match fsLookup fs target with
  | some _ => Except.error "symlink: file exists"
  | none => Except.ok ((target, Entry.symlink source) :: fs)

/-- Does the string end in a slash?  (Used to transcribe `filepath.Dir`.) -/
def endsWithSlash (s : String) : Bool :=
  match s.data.getLast? with
  | some c => c = '/'
  | none => false

/-- `filepath.Dir`, on components: drop the final component; a path
written with a trailing slash already denotes the directory itself
(Dir of a slash-terminated path cleans the slash away). -/
def filepathDir (s : String) : Path :=
  if endsWithSlash s then parsePath s else (parsePath s).dropLast

/-! ## The controller service (pkg/hostpathcsi/controller.go) -/

/-- The fixed base directory the handlers prepend to the volume name/id:
`volumePath := "/tmp/csi/hostpath/" + req.Name`. -/
def basePath : String := "/tmp/csi/hostpath/"

/-- `csi.CapacityRange`: required and limit bytes. -/
structure CapacityRange where
  requiredBytes : Int
  limitBytes : Int
deriving DecidableEq, Repr

/-- `csi.CreateVolumeRequest` (the fields the handler reads).  The
`capacityRange` is a nullable pointer in Go, hence an `Option`. -/
structure CreateVolumeRequest where
  name : String
  capacityRange : Option CapacityRange
  parameters : List (String × String)
deriving DecidableEq, Repr

/-- Outcome of CreateVolume: a response (volume id, capacity, context),
an error, or a crash of the process — the handler dereferences
`req.CapacityRange.RequiredBytes` without a nil check, and a nil
pointer dereference panics (main.go installs no recovery interceptor). -/
inductive CreateVolumeResult where
  | ok (volumeId : String) (capacityBytes : Int) (volumeContext : List (String × String))
  | err (msg : String)
  | crash
deriving DecidableEq, Repr

/-- `ControllerServer.CreateVolume`: mkdir the backing directory at
`basePath ++ name`, then answer with VolumeId = name, CapacityBytes =
`req.CapacityRange.RequiredBytes` (crashing when the range pointer is
nil), VolumeContext = the request parameters.  No validation, no
registry, no lock. -/
def createVolume (fs : FS) (req : CreateVolumeRequest) : FS × CreateVolumeResult :=
  let volumePath := basePath ++ req.name
  match mkdirAll fs (parsePath volumePath) with
  | Except.error e => (fs, CreateVolumeResult.err ("failed to create volume directory: " ++ e))
  | Except.ok fs1 =>
    match req.capacityRange with
    | none => (fs1, CreateVolumeResult.crash)
    | some cr => (fs1, CreateVolumeResult.ok req.name cr.requiredBytes req.parameters)

/-- Outcome of DeleteVolume. -/
inductive DeleteVolumeResult where
  | ok
  | err (msg : String)
deriving DecidableEq, Repr

/-- `ControllerServer.DeleteVolume`: RemoveAll on `basePath ++ volumeId`.
In the fault-free model RemoveAll always succeeds (Go's RemoveAll on a
missing path returns nil), so the handler's error branch is unreachable
here. -/
def deleteVolume (fs : FS) (volumeId : String) : FS × DeleteVolumeResult :=
  let volumePath := basePath ++ volumeId
  (removeAll fs (parsePath volumePath), DeleteVolumeResult.ok)

/-- The controller RPC capabilities the driver can advertise. -/
inductive ControllerCapabilityRPC where
  | createDeleteVolume
  | publishUnpublishVolume
  | listVolumes
deriving DecidableEq, Repr

/-- `ControllerServer.ControllerGetCapabilities`: the single capability
CREATE_DELETE_VOLUME. -/
def controllerGetCapabilities : List ControllerCapabilityRPC :=
  [ControllerCapabilityRPC.createDeleteVolume]

/-! ## The node service (pkg/hostpathcsi/node.go) -/

/-- `csi.NodePublishVolumeRequest` (the fields the handler reads). -/
structure NodePublishVolumeRequest where
  volumeId : String
  targetPath : String
deriving DecidableEq, Repr

/-- `csi.NodeUnpublishVolumeRequest` (the fields the handler reads; the
volume id is only logged). -/
structure NodeUnpublishVolumeRequest where
  volumeId : String
  targetPath : String
deriving DecidableEq, Repr

/-- Outcome of a node RPC. -/
inductive NodeResult where
  | ok
  | err (msg : String)
deriving DecidableEq, Repr

/-- `NodeServer.NodePublishVolume`: fail if the source backing path does
not exist (os.IsNotExist on its Stat); MkdirAll the target's parent;
Lstat the target: a symlink already pointing at the source is success
without modification, any other existing object is RemoveAll-ed; finally
Symlink the source to the target. -/
def nodePublishVolume (fs : FS) (req : NodePublishVolumeRequest) : FS × NodeResult :=
  let sourcePath := basePath ++ req.volumeId
  if stat fs (parsePath sourcePath) = StatRes.notExist then
    (fs, NodeResult.err ("source path " ++ sourcePath ++ " does not exist"))
  else
    match mkdirAll fs (filepathDir req.targetPath) with
    | Except.error e => (fs, NodeResult.err ("failed to create parent directory: " ++ e))
    | Except.ok fs1 =>
      let tp := parsePath req.targetPath
      match lstat fs1 tp with
      | some (Entry.symlink existingSource) =>
        if existingSource = sourcePath then
          (fs1, NodeResult.ok)
        else
          match mkSymlink (removeAll fs1 tp) sourcePath tp with
          | Except.error e => (removeAll fs1 tp, NodeResult.err ("failed to create symlink: " ++ e))
          | Except.ok fs2 => (fs2, NodeResult.ok)
      | some _ =>
        match mkSymlink (removeAll fs1 tp) sourcePath tp with
        | Except.error e => (removeAll fs1 tp, NodeResult.err ("failed to create symlink: " ++ e))
        | Except.ok fs2 => (fs2, NodeResult.ok)
      | none =>
        match mkSymlink fs1 sourcePath tp with
        | Except.error e => (fs1, NodeResult.err ("failed to create symlink: " ++ e))
        | Except.ok fs2 => (fs2, NodeResult.ok)

/-- `NodeServer.NodeUnpublishVolume`: Lstat the target; a symlink is
RemoveAll-ed, a non-symlink is left untouched, a missing target is
skipped; all three are success.  (The handler's remaining branch, an
Lstat failure other than ENOENT, needs an injected I/O fault and is
unreachable in the fault-free model.) -/
def nodeUnpublishVolume (fs : FS) (req : NodeUnpublishVolumeRequest) : FS × NodeResult :=
  let tp := parsePath req.targetPath
  match lstat fs tp with
  | some (Entry.symlink _) => (removeAll fs tp, NodeResult.ok)
  | some _ => (fs, NodeResult.ok)
  | none => (fs, NodeResult.ok)

/-- The node RPC capabilities the driver can advertise.  `unknown` is
`NodeServiceCapability_RPC_UNKNOWN`. -/
inductive NodeCapabilityRPC where
  | unknown
  | stageUnstageVolume
deriving DecidableEq, Repr

/-- `NodeServer.NodeGetCapabilities`: a one-element capability list whose
sole entry has RPC type UNKNOWN (the source constructs one
`NodeServiceCapability` with `Type: RPC_UNKNOWN`). -/
def nodeGetCapabilities : List NodeCapabilityRPC :=
  [NodeCapabilityRPC.unknown]

/-! ## Effect traces

To settle what synchronisation the handlers perform, each handler is also
transcribed as the sequence of primitive actions it executes (log lines,
lock operations, filesystem calls), in source order.  The Go handlers
contain no `sync.Mutex`, `sync.Map`, channel, or any other
synchronisation primitive, which the traces make checkable: no trace
contains a lock effect.  Paths are recorded in parsed component form. -/

/-- An observable primitive action of a handler. -/
inductive Effect where
  | logInfo (msg : String)
  | lockAcquire (key : String)
  | lockRelease (key : String)
  | fsMkdirAll (p : Path)
  | fsRemoveAll (p : Path)
  | fsStat (p : Path)
  | fsLstat (p : Path)
  | fsReadlink (p : Path)
  | fsSymlink (source : String) (target : Path)
deriving DecidableEq, Repr

/-- Is the effect a lock acquisition or release? -/
def Effect.isLock : Effect → Bool
  | Effect.lockAcquire _ => true
  | Effect.lockRelease _ => true
  | _ => false

/-- Action sequence of `CreateVolume`: the entry log line, then the
MkdirAll of the backing path (state-independent: the handler
unconditionally performs exactly these). -/
def createVolumeEffects (req : CreateVolumeRequest) : List Effect :=
  [Effect.logInfo ("Received CreateVolume request for " ++ req.name),
   Effect.fsMkdirAll (parsePath (basePath ++ req.name))]

/-- Action sequence of `DeleteVolume`: the entry log line, then the
RemoveAll of the backing path. -/
def deleteVolumeEffects (volumeId : String) : List Effect :=
  [Effect.logInfo ("Received DeleteVolume request for " ++ volumeId),
   Effect.fsRemoveAll (parsePath (basePath ++ volumeId))]

/-- Action sequence of `NodePublishVolume`, following the handler's
branches on the state `fs`. -/
def nodePublishVolumeEffects (fs : FS) (req : NodePublishVolumeRequest) : List Effect :=
  let sourcePath := basePath ++ req.volumeId
  let sp := parsePath sourcePath
  let tp := parsePath req.targetPath
  Effect.logInfo ("Received NodePublishVolume request for " ++ req.volumeId) ::
  Effect.fsStat sp ::
  if stat fs sp = StatRes.notExist then []
  else
    Effect.fsMkdirAll (filepathDir req.targetPath) ::
    match mkdirAll fs (filepathDir req.targetPath) with
    | Except.error _ => []
    | Except.ok fs1 =>
      Effect.fsLstat tp ::
      match lstat fs1 tp with
      | some (Entry.symlink existingSource) =>
        Effect.fsReadlink tp ::
        if existingSource = sourcePath then
          [Effect.logInfo "already linked to correct source, skipping creation"]
        else
          [Effect.logInfo "symlink points to wrong source, removing it",
           Effect.fsRemoveAll tp, Effect.fsSymlink sourcePath tp,
           Effect.logInfo "successfully mounted"]
      | some _ =>
        [Effect.logInfo "exists but is not a symlink, removing it",
         Effect.fsRemoveAll tp, Effect.fsSymlink sourcePath tp,
         Effect.logInfo "successfully mounted"]
      | none =>
        [Effect.fsSymlink sourcePath tp, Effect.logInfo "successfully mounted"]

/-- Action sequence of `NodeUnpublishVolume`, following the handler's
branches on the state `fs`. -/
def nodeUnpublishVolumeEffects (fs : FS) (req : NodeUnpublishVolumeRequest) : List Effect :=
  let tp := parsePath req.targetPath
  Effect.logInfo ("Received NodeUnpublishVolume request for " ++ req.volumeId) ::
  Effect.fsLstat tp ::
  match lstat fs tp with
  | some (Entry.symlink _) =>
    [Effect.logInfo "is a symlink, removing it", Effect.fsRemoveAll tp,
     Effect.logInfo "successfully removed symlink"]
  | some _ => [Effect.logInfo "is not a symlink, skipping removal"]
  | none => [Effect.logInfo "does not exist, skipping unpublish"]

/-! ## Lemmas about the filesystem model -/

/-- Prepending the fixed base directory contributes exactly the three
components `tmp`, `csi`, `hostpath` to the parsed path. -/
theorem parsePath_base_append (s : String) :
    parsePath (basePath ++ s) = "tmp" :: "csi" :: "hostpath" :: parsePath s := rfl

/-- A path stored as a directory stats as a directory. -/
theorem stat_of_lookup_dir {fs : FS} {p : Path} (h : fsLookup fs p = some Entry.dir) :
    stat fs p = StatRes.found Entry.dir := by
  simp only [stat, statFuel]
  split
  · rfl
  · rw [h]

/-- A non-root path with no stored entry stats as not existing. -/
theorem stat_of_lookup_none {fs : FS} {p : Path} (h : fsLookup fs p = none) (hp : p ≠ []) :
    stat fs p = StatRes.notExist := by
  simp only [stat, statFuel]
  rw [if_neg hp, h]

/-- A list is a prefix of itself at the Boolean level. -/
theorem isPrefixOf_self_true (p : Path) : p.isPrefixOf p = true := by
  simp [List.isPrefixOf_iff_prefix]

/-- Boolean non-prefixhood separates the two paths. -/
theorem ne_of_isPrefixOf_false {p q : Path} (h : p.isPrefixOf q = false) : p ≠ q := by
  intro hq
  rw [hq, isPrefixOf_self_true] at h
  cases h

/-- A nonempty path is not a prefix of its own parent. -/
theorem isPrefixOf_dropLast_false {p : Path} (hp : p ≠ []) :
    p.isPrefixOf p.dropLast = false := by
  rw [Bool.eq_false_iff]
  intro htrue
  have hle := (List.isPrefixOf_iff_prefix.mp htrue).length_le
  rw [List.length_dropLast] at hle
  have hpos : 0 < p.length := List.length_pos.mpr hp
  omega

/-- A nonempty path differs from its own parent. -/
theorem ne_dropLast_of_ne_nil {p : Path} (hp : p ≠ []) : p ≠ p.dropLast := by
  intro h
  have := congrArg List.length h
  rw [List.length_dropLast] at this
  have hpos : 0 < p.length := List.length_pos.mpr hp
  omega

/-- After `removeAll fs p`, nothing at or below `p` remains. -/
theorem fsLookup_removeAll_of_under (fs : FS) {p q : Path} (h : p.isPrefixOf q = true) :
    fsLookup (removeAll fs p) q = none := by
  induction fs with
  | nil => rfl
  | cons pe rest ih =>
    rw [removeAll, List.filter_cons]
    by_cases hpe : p.isPrefixOf pe.1
    · simpa [hpe, removeAll] using ih
    · have hne : pe.1 ≠ q := by
        intro hq
        rw [hq, h] at hpe
        exact hpe rfl
      rw [Bool.not_eq_true] at hpe
      simpa [hpe, fsLookup, hne, removeAll] using ih

/-- `removeAll fs p` does not disturb paths outside the subtree of `p`. -/
theorem fsLookup_removeAll_of_not (fs : FS) {p q : Path} (h : p.isPrefixOf q = false) :
    fsLookup (removeAll fs p) q = fsLookup fs q := by
  induction fs with
  | nil => rfl
  | cons pe rest ih =>
    rw [removeAll, List.filter_cons]
    by_cases hpe : p.isPrefixOf pe.1
    · have hne : pe.1 ≠ q := by
        intro hq
        rw [hq] at hpe
        rw [hpe] at h
        cases h
      simp only [hpe, Bool.not_true, cond_false, if_neg]
      rw [show fsLookup (pe :: rest) q = fsLookup rest q by simp [fsLookup, hne]]
      simpa [removeAll] using ih
    · rw [Bool.not_eq_true] at hpe
      by_cases hq : pe.1 = q
      · simp [hpe, fsLookup, hq, h]
      · simpa [hpe, fsLookup, hq, removeAll] using ih

/-- `countKey` over a cons cell. -/
theorem countKey_cons (pe : Path × Entry) (fs : FS) (p : Path) :
    countKey (pe :: fs) p = countKey fs p + (if pe.1 = p then 1 else 0) := by
  simp [countKey, List.countP_cons]

/-- The association list has no entry at `p` exactly when its key count
at `p` is zero. -/
theorem fsLookup_eq_none_iff {fs : FS} {p : Path} :
    fsLookup fs p = none ↔ countKey fs p = 0 := by
  induction fs with
  | nil => simp [fsLookup, countKey]
  | cons pe rest ih =>
    rw [countKey_cons]
    by_cases hpe : pe.1 = p
    · simp [fsLookup, hpe]
    · simp [fsLookup, hpe, ih]

/-- After `removeAll fs p`, the key count at `p` is zero. -/
theorem countKey_removeAll_self (fs : FS) (p : Path) :
    countKey (removeAll fs p) p = 0 :=
  fsLookup_eq_none_iff.mp (fsLookup_removeAll_of_under fs (isPrefixOf_self_true p))

/-- Unfolding equation of `mkdirAllFuel` at fuel zero. -/
theorem mkdirAllFuel_zero (fs : FS) (p : Path) :
    mkdirAllFuel 0 fs p =
      match stat fs p with
      | StatRes.found Entry.dir => Except.ok fs
      | StatRes.found _ => Except.error "mkdir: not a directory"
      | _ => Except.error "mkdir: out of fuel" := rfl

/-- Unfolding equation of `mkdirAllFuel` at successor fuel. -/
theorem mkdirAllFuel_succ (n : Nat) (fs : FS) (p : Path) :
    mkdirAllFuel (n + 1) fs p =
      match stat fs p with
      | StatRes.found Entry.dir => Except.ok fs
      | StatRes.found _ => Except.error "mkdir: not a directory"
      | _ =>
        match p with
        | [] => Except.error "mkdir: no such file or directory"
        | _ :: _ =>
          match mkdirAllFuel n fs p.dropLast with
          | Except.error e => Except.error e
          | Except.ok fs1 => Except.ok ((p, Entry.dir) :: fs1) := rfl

/-- A successful MkdirAll leaves its path stat-ing as a directory. -/
theorem mkdirAllFuel_ok_stat (fuel : Nat) (fs : FS) (p : Path) (fs1 : FS)
    (h : mkdirAllFuel fuel fs p = Except.ok fs1) :
    stat fs1 p = StatRes.found Entry.dir := by
  cases fuel with
  | zero =>
    rw [mkdirAllFuel_zero] at h
    split at h
    · rename_i heq
      cases h
      exact heq
    · cases h
    · cases h
  | succ n =>
    rw [mkdirAllFuel_succ] at h
    split at h
    · rename_i heq
      cases h
      exact heq
    · cases h
    · split at h
      · cases h
      · split at h
        · cases h
        · cases h
          exact stat_of_lookup_dir (by simp [fsLookup])

/-- MkdirAll only touches paths whose component count is at most that of
its argument: key counts at strictly longer paths are unchanged. -/
theorem mkdirAllFuel_countKey_of_lt :
    ∀ (fuel : Nat) (fs : FS) (p : Path) (fs1 : FS) (q : Path),
      mkdirAllFuel fuel fs p = Except.ok fs1 → p.length < q.length →
      countKey fs1 q = countKey fs q := by
  intro fuel
  induction fuel with
  | zero =>
    intro fs p fs1 q h hlt
    rw [mkdirAllFuel_zero] at h
    split at h
    · cases h; rfl
    · cases h
    · cases h
  | succ n ih =>
    intro fs p fs1 q h hlt
    rw [mkdirAllFuel_succ] at h
    split at h
    · cases h; rfl
    · cases h
    · split at h
      · cases h
      · rename_i a as hc1 hc2
        split at h
        · cases h
        · rename_i fs2 hmk
          cases h
          rw [countKey_cons]
          have hne : a :: as ≠ q := fun hpq => by rw [hpq] at hlt; omega
          rw [if_neg hne]
          have hlt2 : (a :: as).dropLast.length < q.length := by
            rw [List.length_dropLast]
            simp only [List.length_cons] at hlt ⊢
            omega
          rw [ih fs (a :: as).dropLast fs2 q hmk hlt2]
          omega

/-- Creating a previously-absent directory raises its key count by one. -/
theorem mkdirAllFuel_countKey_self (fuel : Nat) (fs : FS) (p : Path) (fs1 : FS)
    (h : mkdirAllFuel fuel fs p = Except.ok fs1) (hlook : fsLookup fs p = none)
    (hp : p ≠ []) :
    countKey fs1 p = countKey fs p + 1 := by
  have hst : stat fs p = StatRes.notExist := stat_of_lookup_none hlook hp
  cases fuel with
  | zero =>
    rw [mkdirAllFuel_zero] at h
    split at h
    · rename_i heq
      rw [hst] at heq
      cases heq
    · cases h
    · cases h
  | succ n =>
    rw [mkdirAllFuel_succ] at h
    split at h
    · rename_i heq
      rw [hst] at heq
      cases heq
    · cases h
    · split at h
      · cases h
      · rename_i a as hc1 hc2
        split at h
        · cases h
        · rename_i fs2 hmk
          cases h
          rw [countKey_cons, if_pos rfl]
          have hlt : (a :: as).dropLast.length < (a :: as).length := by
            rw [List.length_dropLast]
            simp only [List.length_cons]
            omega
          rw [mkdirAllFuel_countKey_of_lt n fs (a :: as).dropLast fs2 (a :: as) hmk hlt]

/-- A successful `mkdirAll` leaves its path stat-ing as a directory. -/
theorem mkdirAll_ok_stat {fs fs1 : FS} {p : Path} (h : mkdirAll fs p = Except.ok fs1) :
    stat fs1 p = StatRes.found Entry.dir :=
  mkdirAllFuel_ok_stat p.length fs p fs1 h

/-- `mkdirAll` on an existing directory is a success that changes
nothing (Go: Stat reports a directory, return nil). -/
theorem mkdirAll_of_stat_dir {fs : FS} {p : Path}
    (h : stat fs p = StatRes.found Entry.dir) :
    mkdirAll fs p = Except.ok fs := by
  unfold mkdirAll
  cases hn : p.length with
  | zero => rw [mkdirAllFuel_zero, h]
  | succ n => rw [mkdirAllFuel_succ, h]

/-- `mkdirAll` of a previously-absent path raises its key count by one. -/
theorem mkdirAll_countKey_self {fs fs1 : FS} {p : Path}
    (h : mkdirAll fs p = Except.ok fs1) (hlook : fsLookup fs p = none) (hp : p ≠ []) :
    countKey fs1 p = countKey fs p + 1 :=
  mkdirAllFuel_countKey_self p.length fs p fs1 h hlook hp

/-- The CreateVolume trace contains no lock operation. -/
theorem createVolumeEffects_lockFree (req : CreateVolumeRequest) :
    (createVolumeEffects req).filter Effect.isLock = [] := rfl

/-- The DeleteVolume trace contains no lock operation. -/
theorem deleteVolumeEffects_lockFree (v : String) :
    (deleteVolumeEffects v).filter Effect.isLock = [] := rfl

/-- The NodePublishVolume trace contains no lock operation, in any
state, in any branch. -/
theorem nodePublishVolumeEffects_lockFree (fs : FS) (req : NodePublishVolumeRequest) :
    (nodePublishVolumeEffects fs req).filter Effect.isLock = [] := by
  unfold nodePublishVolumeEffects
  by_cases hsrc : stat fs (parsePath (basePath ++ req.volumeId)) = StatRes.notExist
  · simp [hsrc, Effect.isLock, List.filter]
  · rcases hmk : mkdirAll fs (filepathDir req.targetPath) with em | fs1
    · simp [hsrc, hmk, Effect.isLock, List.filter]
    · rcases hl : lstat fs1 (parsePath req.targetPath) with _ | en
      · simp [hsrc, hmk, hl, Effect.isLock, List.filter]
      · cases en with
        | dir => simp [hsrc, hmk, hl, Effect.isLock, List.filter]
        | file => simp [hsrc, hmk, hl, Effect.isLock, List.filter]
        | symlink t =>
          by_cases ht : t = basePath ++ req.volumeId
          · simp [hsrc, hmk, hl, ht, Effect.isLock, List.filter]
          · simp [hsrc, hmk, hl, ht, Effect.isLock, List.filter]

/-- The NodeUnpublishVolume trace contains no lock operation, in any
state, in any branch. -/
theorem nodeUnpublishVolumeEffects_lockFree (fs : FS) (req : NodeUnpublishVolumeRequest) :
    (nodeUnpublishVolumeEffects fs req).filter Effect.isLock = [] := by
  unfold nodeUnpublishVolumeEffects
  rcases hl : lstat fs (parsePath req.targetPath) with _ | en
  · simp [hl, Effect.isLock, List.filter]
  · cases en <;> simp [hl, Effect.isLock, List.filter]

/-! ## The claims -/

/-- C9 (amended): ControllerGetCapabilities returns exactly the single
capability CREATE_DELETE_VOLUME, and NodeGetCapabilities always succeeds
and never advertises STAGE_UNSTAGE_VOLUME — but the list it returns is
not empty: it is the one-element list whose sole entry is the UNKNOWN
capability. -/
theorem claim_C9_capabilities :
    controllerGetCapabilities = [ControllerCapabilityRPC.createDeleteVolume] ∧
    nodeGetCapabilities = [NodeCapabilityRPC.unknown] ∧
    NodeCapabilityRPC.stageUnstageVolume ∉ nodeGetCapabilities := by
  refine ⟨rfl, rfl, ?_⟩
  decide

/-- C9 counterexample: the node capability list is not the empty set —
it has exactly one (UNKNOWN) entry. -/
theorem claim_C9_counterexample :
    nodeGetCapabilities ≠ [] ∧ nodeGetCapabilities.length = 1 := by
  decide

/-- C10: DeleteVolume builds the path to remove by string concatenation,
so for the empty volume id the removed path is the base directory
`/tmp/csi/hostpath/` itself: the call removes every entry at or below
the base directory — the backing storage of every existing volume — and
returns success. -/
theorem claim_C10_delete_empty_id (fs : FS) (q : Path)
    (hq : (["tmp", "csi", "hostpath"] : Path).isPrefixOf q = true) :
    basePath ++ "" = "/tmp/csi/hostpath/" ∧
    parsePath (basePath ++ "") = ["tmp", "csi", "hostpath"] ∧
    (deleteVolume fs "").2 = DeleteVolumeResult.ok ∧
    fsLookup (deleteVolume fs "").1 q = none := by
  refine ⟨rfl, rfl, rfl, ?_⟩
  exact fsLookup_removeAll_of_under fs hq

/-- C10 witness: deleting volume id "" on a filesystem holding volumes
v1 and v2 erases the backing directory of v1 (and, symmetrically, every
other volume) and reports success. -/
theorem claim_C10_witness :
    (["tmp", "csi", "hostpath"] : Path).isPrefixOf ["tmp", "csi", "hostpath", "v1"] = true ∧
    fsLookup
      (deleteVolume
        [(["tmp", "csi", "hostpath", "v1"], Entry.dir),
         (["tmp", "csi", "hostpath", "v2"], Entry.dir),
         (["tmp", "csi", "hostpath"], Entry.dir)] "").1
      ["tmp", "csi", "hostpath", "v1"] = none :=
  ⟨by decide, (claim_C10_delete_empty_id _ _ (by decide)).2.2.2⟩

/-- C5: DeleteVolume on a volume id that does not exist (no entry at or
below its backing path) returns success and leaves the filesystem
unchanged, and DeleteVolume twice in a row on any id succeeds both
times. -/
theorem claim_C5_delete_idempotent (fs : FS) (volumeId : String)
    (habsent : fs.all (fun pe => !(parsePath (basePath ++ volumeId)).isPrefixOf pe.1) = true) :
    (deleteVolume fs volumeId).2 = DeleteVolumeResult.ok ∧
    (deleteVolume fs volumeId).1 = fs ∧
    ∀ (g : FS) (v : String),
      (deleteVolume g v).2 = DeleteVolumeResult.ok ∧
      (deleteVolume (deleteVolume g v).1 v).2 = DeleteVolumeResult.ok := by
  refine ⟨rfl, ?_, fun g v => ⟨rfl, rfl⟩⟩
  show removeAll fs (parsePath (basePath ++ volumeId)) = fs
  rw [removeAll, List.filter_eq_self]
  exact List.all_eq_true.mp habsent

/-- C5 witness: deleting the never-created id v1 on a filesystem holding
only v2 succeeds and changes nothing. -/
theorem claim_C5_witness :
    (deleteVolume [(["tmp", "csi", "hostpath", "v2"], Entry.dir)] "v1").2 =
      DeleteVolumeResult.ok ∧
    (deleteVolume [(["tmp", "csi", "hostpath", "v2"], Entry.dir)] "v1").1 =
      [(["tmp", "csi", "hostpath", "v2"], Entry.dir)] :=
  ⟨(claim_C5_delete_idempotent _ "v1" (by decide)).1,
   (claim_C5_delete_idempotent _ "v1" (by decide)).2.1⟩

/-- C3 (amended): a CreateVolume request that carries a capacity range —
including one requiring zero bytes and/or setting no upper bound — is
accepted whenever the backing mkdir succeeds, and its requiredBytes is
echoed back verbatim; but a request carrying no capacity range at all
does not return a response: the handler crashes on the nil pointer
dereference of req.CapacityRange, after having created the backing
directory. -/
theorem claim_C3_capacity_echo (fs fs1 : FS) (req : CreateVolumeRequest) (cr : CapacityRange)
    (hcr : req.capacityRange = some cr)
    (hmk : mkdirAll fs (parsePath (basePath ++ req.name)) = Except.ok fs1) :
    createVolume fs req = (fs1, CreateVolumeResult.ok req.name cr.requiredBytes req.parameters) ∧
    ∀ (g g1 : FS) (name : String) (ps : List (String × String)),
      mkdirAll g (parsePath (basePath ++ name)) = Except.ok g1 →
      createVolume g { name := name, capacityRange := none, parameters := ps } =
        (g1, CreateVolumeResult.crash) := by
  constructor
  · simp [createVolume, hmk, hcr]
  · intro g g1 name ps hmkg
    simp [createVolume, hmkg]

/-- C3 counterexample: a request with no capacity range at all does not
return (and echoes nothing): the handler crashes, after creating the
backing directory. -/
theorem claim_C3_counterexample :
    createVolume [] { name := "v1", capacityRange := none, parameters := [] } =
      ([(["tmp", "csi", "hostpath", "v1"], Entry.dir), (["tmp", "csi", "hostpath"], Entry.dir),
        (["tmp", "csi"], Entry.dir), (["tmp"], Entry.dir)], CreateVolumeResult.crash) := rfl

/-- C3 witness: a zero-byte capacity range with no upper bound is
accepted and its zero requiredBytes is echoed verbatim. -/
theorem claim_C3_witness :
    createVolume [] { name := "v0", capacityRange := some ⟨0, 0⟩, parameters := [] } =
      ([(["tmp", "csi", "hostpath", "v0"], Entry.dir), (["tmp", "csi", "hostpath"], Entry.dir),
        (["tmp", "csi"], Entry.dir), (["tmp"], Entry.dir)],
       CreateVolumeResult.ok "v0" 0 []) :=
  (claim_C3_capacity_echo []
    [(["tmp", "csi", "hostpath", "v0"], Entry.dir), (["tmp", "csi", "hostpath"], Entry.dir),
     (["tmp", "csi"], Entry.dir), (["tmp"], Entry.dir)]
    { name := "v0", capacityRange := some ⟨0, 0⟩, parameters := [] } ⟨0, 0⟩ rfl rfl).1

/-- C4 (amended): CreateVolume performs no request validation at all: a
request with an empty name succeeds (the volume id is the empty string
and the backing path degenerates to the base directory), and a request
whose capacity range minimum exceeds its maximum also succeeds, echoing
the minimum verbatim; no invalid-argument rejection exists in the
handler. -/
theorem claim_C4_no_validation (fs fs1 g g1 : FS) (cr icr : CapacityRange)
    (ps ips : List (String × String)) (name : String)
    (hinv : icr.limitBytes < icr.requiredBytes)
    (hmk : mkdirAll fs (parsePath (basePath ++ "")) = Except.ok fs1)
    (hmkg : mkdirAll g (parsePath (basePath ++ name)) = Except.ok g1) :
    createVolume fs { name := "", capacityRange := some cr, parameters := ps } =
      (fs1, CreateVolumeResult.ok "" cr.requiredBytes ps) ∧
    createVolume g { name := name, capacityRange := some icr, parameters := ips } =
      (g1, CreateVolumeResult.ok name icr.requiredBytes ips) := by
  have hmk2 : mkdirAll fs (parsePath basePath) = Except.ok fs1 := by
    simpa using hmk
  constructor
  · simp [createVolume, hmk2]
  · simp [createVolume, hmkg]

/-- C4 counterexample: CreateVolume with an empty requested name
succeeds with volume id "" (no invalid-argument error), and CreateVolume
with an inverted capacity range (required 2GiB, limit 1GiB) also
succeeds, echoing the required bytes. -/
theorem claim_C4_counterexample :
    (createVolume
        [(["tmp", "csi", "hostpath"], Entry.dir), (["tmp", "csi"], Entry.dir),
         (["tmp"], Entry.dir)]
        { name := "", capacityRange := some ⟨1073741824, 0⟩, parameters := [] }).2 =
      CreateVolumeResult.ok "" 1073741824 [] ∧
    (createVolume []
        { name := "v1", capacityRange := some ⟨2147483648, 1073741824⟩, parameters := [] }).2 =
      CreateVolumeResult.ok "v1" 2147483648 [] :=
  ⟨rfl, rfl⟩

/-- C4 witness: both no-validation behaviors at concrete inputs. -/
theorem claim_C4_witness :
    createVolume
        [(["tmp", "csi", "hostpath"], Entry.dir), (["tmp", "csi"], Entry.dir),
         (["tmp"], Entry.dir)]
        { name := "", capacityRange := some ⟨1073741824, 2147483648⟩, parameters := [] } =
      ([(["tmp", "csi", "hostpath"], Entry.dir), (["tmp", "csi"], Entry.dir),
        (["tmp"], Entry.dir)],
       CreateVolumeResult.ok "" 1073741824 []) ∧
    createVolume []
        { name := "v1", capacityRange := some ⟨2147483648, 1073741824⟩, parameters := [] } =
      ([(["tmp", "csi", "hostpath", "v1"], Entry.dir), (["tmp", "csi", "hostpath"], Entry.dir),
        (["tmp", "csi"], Entry.dir), (["tmp"], Entry.dir)],
       CreateVolumeResult.ok "v1" 2147483648 []) := by
  have h := claim_C4_no_validation
    [(["tmp", "csi", "hostpath"], Entry.dir), (["tmp", "csi"], Entry.dir), (["tmp"], Entry.dir)]
    [(["tmp", "csi", "hostpath"], Entry.dir), (["tmp", "csi"], Entry.dir), (["tmp"], Entry.dir)]
    []
    [(["tmp", "csi", "hostpath", "v1"], Entry.dir), (["tmp", "csi", "hostpath"], Entry.dir),
     (["tmp", "csi"], Entry.dir), (["tmp"], Entry.dir)]
    ⟨1073741824, 2147483648⟩ ⟨2147483648, 1073741824⟩ [] [] "v1"
    (by decide) rfl rfl
  exact h

/-- C7: NodeUnpublishVolume always succeeds: if the target does not
exist nothing happens; if the target is a symlink it is removed; and if
the target exists but is not a link (a foreign object) it is left
completely untouched — the node never deletes data it did not create. -/
theorem claim_C7_unpublish_never_deletes_foreign (fs : FS) (req : NodeUnpublishVolumeRequest) :
    (nodeUnpublishVolume fs req).2 = NodeResult.ok ∧
    (fsLookup fs (parsePath req.targetPath) = none → (nodeUnpublishVolume fs req).1 = fs) ∧
    (∀ t, fsLookup fs (parsePath req.targetPath) = some (Entry.symlink t) →
      (nodeUnpublishVolume fs req).1 = removeAll fs (parsePath req.targetPath) ∧
      fsLookup (nodeUnpublishVolume fs req).1 (parsePath req.targetPath) = none) ∧
    (∀ e, fsLookup fs (parsePath req.targetPath) = some e → (∀ t, e ≠ Entry.symlink t) →
      (nodeUnpublishVolume fs req).1 = fs) := by
  rcases hl : fsLookup fs (parsePath req.targetPath) with _ | en
  · refine ⟨?_, fun _ => ?_, fun t ht => ?_, fun e he _ => ?_⟩
    · simp [nodeUnpublishVolume, lstat, hl]
    · simp [nodeUnpublishVolume, lstat, hl]
    · cases ht
    · cases he
  · cases en with
    | dir =>
      refine ⟨?_, fun hn => ?_, fun t ht => ?_, fun e he _ => ?_⟩
      · simp [nodeUnpublishVolume, lstat, hl]
      · cases hn
      · cases ht
      · simp [nodeUnpublishVolume, lstat, hl]
    | file =>
      refine ⟨?_, fun hn => ?_, fun t ht => ?_, fun e he _ => ?_⟩
      · simp [nodeUnpublishVolume, lstat, hl]
      · cases hn
      · cases ht
      · simp [nodeUnpublishVolume, lstat, hl]
    | symlink t0 =>
      refine ⟨?_, fun hn => ?_, fun t ht => ?_, fun e he hfor => ?_⟩
      · simp [nodeUnpublishVolume, lstat, hl]
      · cases hn
      · constructor
        · simp [nodeUnpublishVolume, lstat, hl]
        · simp only [nodeUnpublishVolume, lstat, hl]
          exact fsLookup_removeAll_of_under fs (isPrefixOf_self_true _)
      · cases he
        exact absurd rfl (hfor t0)

/-- C7 witness: a foreign plain file at the target is left exactly in
place and the call still succeeds. -/
theorem claim_C7_witness :
    (nodeUnpublishVolume [(["mnt", "a"], Entry.file)]
        { volumeId := "v1", targetPath := "/mnt/a" }).2 = NodeResult.ok ∧
    (nodeUnpublishVolume [(["mnt", "a"], Entry.file)]
        { volumeId := "v1", targetPath := "/mnt/a" }).1 = [(["mnt", "a"], Entry.file)] := by
  have h := claim_C7_unpublish_never_deletes_foreign [(["mnt", "a"], Entry.file)]
    { volumeId := "v1", targetPath := "/mnt/a" }
  exact ⟨h.1, h.2.2.2 Entry.file rfl (fun t hteq => by cases hteq)⟩

/-- C8 (amended): whenever CreateVolume returns an error the filesystem
is completely unchanged (there is no registry at all, and the only
mutation attempted is the mkdir itself, which mutates nothing when it
fails); and whenever NodePublishVolume returns an error the filesystem —
including the target path — is exactly as it was before the call: in
particular a pre-existing foreign object or stale link at the target
remains in place, rather than the target being left absent or as a
correct link. -/
theorem claim_C8_error_leaves_state (fs g : FS) (req : CreateVolumeRequest)
    (nreq : NodePublishVolumeRequest) (e1 e2 : String)
    (h1 : (createVolume fs req).2 = CreateVolumeResult.err e1)
    (h2 : (nodePublishVolume g nreq).2 = NodeResult.err e2) :
    (createVolume fs req).1 = fs ∧ (nodePublishVolume g nreq).1 = g := by
  constructor
  · rcases hmk : mkdirAll fs (parsePath (basePath ++ req.name)) with em | fs1
    · simp [createVolume, hmk]
    · rcases hcr : req.capacityRange with _ | cr
      · simp [createVolume, hmk, hcr] at h1
      · simp [createVolume, hmk, hcr] at h1
  · by_cases hsrc : stat g (parsePath (basePath ++ nreq.volumeId)) = StatRes.notExist
    · simp [nodePublishVolume, hsrc]
    · rcases hmk : mkdirAll g (filepathDir nreq.targetPath) with em | g1
      · simp [nodePublishVolume, hsrc, hmk]
      · rcases hl : lstat g1 (parsePath nreq.targetPath) with _ | en
        · have hnone : fsLookup g1 (parsePath nreq.targetPath) = none := hl
          simp [nodePublishVolume, hsrc, hmk, hl, mkSymlink, hnone] at h2
        · cases en with
          | dir =>
            have hrm := fsLookup_removeAll_of_under g1
              (isPrefixOf_self_true (parsePath nreq.targetPath))
            simp [nodePublishVolume, hsrc, hmk, hl, mkSymlink, hrm] at h2
          | file =>
            have hrm := fsLookup_removeAll_of_under g1
              (isPrefixOf_self_true (parsePath nreq.targetPath))
            simp [nodePublishVolume, hsrc, hmk, hl, mkSymlink, hrm] at h2
          | symlink t =>
            by_cases ht : t = basePath ++ nreq.volumeId
            · simp [nodePublishVolume, hsrc, hmk, hl, ht] at h2
            · have hrm := fsLookup_removeAll_of_under g1
                (isPrefixOf_self_true (parsePath nreq.targetPath))
              simp [nodePublishVolume, hsrc, hmk, hl, ht, mkSymlink, hrm] at h2

/-- C8 counterexample: with the source backing path missing and a stale
symlink at the target, NodePublishVolume returns an error but leaves the
target as the stale link — the target is neither absent nor a correct
link after the failure. -/
theorem claim_C8_counterexample :
    nodePublishVolume [(["mnt"], Entry.dir), (["mnt", "a"], Entry.symlink "/old/data")]
        { volumeId := "v1", targetPath := "/mnt/a" } =
      ([(["mnt"], Entry.dir), (["mnt", "a"], Entry.symlink "/old/data")],
       NodeResult.err "source path /tmp/csi/hostpath/v1 does not exist") ∧
    fsLookup [(["mnt"], Entry.dir), (["mnt", "a"], Entry.symlink "/old/data")]
        (parsePath "/mnt/a") = some (Entry.symlink "/old/data") ∧
    Entry.symlink "/old/data" ≠ Entry.symlink (basePath ++ "v1") := by
  refine ⟨rfl, rfl, ?_⟩
  decide

/-- C8 witness: a CreateVolume error (base path component is a plain
file) and a NodePublishVolume error (missing source) both leave the
filesystem exactly unchanged. -/
theorem claim_C8_witness :
    (createVolume [(["tmp"], Entry.file)]
        { name := "v1", capacityRange := some ⟨1073741824, 0⟩, parameters := [] }).1 =
      [(["tmp"], Entry.file)] ∧
    (nodePublishVolume [(["mnt", "b"], Entry.file)]
        { volumeId := "v9", targetPath := "/mnt/b" }).1 = [(["mnt", "b"], Entry.file)] :=
  claim_C8_error_leaves_state [(["tmp"], Entry.file)] [(["mnt", "b"], Entry.file)]
    { name := "v1", capacityRange := some ⟨1073741824, 0⟩, parameters := [] }
    { volumeId := "v9", targetPath := "/mnt/b" }
    "failed to create volume directory: mkdir: not a directory"
    "source path /tmp/csi/hostpath/v9 does not exist" rfl rfl

/-- C1 (amended): calling CreateVolume twice with the same requested
name and identical capacity and parameters returns the same volume id
(the requested name itself) and the same capacityBytes both times; but a
further call with the same name and a different capacity does not fail
with an already-exists conflict — it succeeds as well, returning the
same id with the new capacity echoed (the handler keeps no registry and
performs no conflict check). -/
theorem claim_C1_create_idempotent (fs fs1 : FS) (req reqB : CreateVolumeRequest)
    (cr crB : CapacityRange) (id : String) (c : Int) (ps : List (String × String))
    (hcr : req.capacityRange = some cr)
    (hcrB : reqB.capacityRange = some crB)
    (hname : reqB.name = req.name)
    (h1 : createVolume fs req = (fs1, CreateVolumeResult.ok id c ps)) :
    id = req.name ∧ c = cr.requiredBytes ∧ ps = req.parameters ∧
    createVolume fs1 reqB =
      (fs1, CreateVolumeResult.ok reqB.name crB.requiredBytes reqB.parameters) := by
  rcases hmk : mkdirAll fs (parsePath (basePath ++ req.name)) with em | fs2
  · simp [createVolume, hmk] at h1
  · simp [createVolume, hmk, hcr] at h1
    obtain ⟨hfs, hid, hc, hps⟩ := h1
    have hstat : stat fs1 (parsePath (basePath ++ reqB.name)) = StatRes.found Entry.dir := by
      rw [hname, ← hfs]
      exact mkdirAll_ok_stat hmk
    have hmk2 : mkdirAll fs1 (parsePath (basePath ++ reqB.name)) = Except.ok fs1 :=
      mkdirAll_of_stat_dir hstat
    refine ⟨hid.symm, hc.symm, hps.symm, ?_⟩
    simp [createVolume, hmk2, hcrB]

/-- C1 counterexample: after creating volume v1 with capacity 1GiB,
calling CreateVolume again for v1 with capacity 2GiB does not fail with
an already-exists conflict: it succeeds, echoing the new capacity. -/
theorem claim_C1_counterexample :
    (createVolume
        (createVolume []
          { name := "v1", capacityRange := some ⟨1073741824, 0⟩, parameters := [] }).1
        { name := "v1", capacityRange := some ⟨2147483648, 0⟩, parameters := [] }).2 =
      CreateVolumeResult.ok "v1" 2147483648 [] := rfl

/-- C1 witness: the second identical CreateVolume call for v1 returns
the same id and capacity as the first, changing nothing. -/
theorem claim_C1_witness :
    createVolume
        [(["tmp", "csi", "hostpath", "v1"], Entry.dir), (["tmp", "csi", "hostpath"], Entry.dir),
         (["tmp", "csi"], Entry.dir), (["tmp"], Entry.dir)]
        { name := "v1", capacityRange := some ⟨1073741824, 0⟩, parameters := [] } =
      ([(["tmp", "csi", "hostpath", "v1"], Entry.dir), (["tmp", "csi", "hostpath"], Entry.dir),
        (["tmp", "csi"], Entry.dir), (["tmp"], Entry.dir)],
       CreateVolumeResult.ok "v1" 1073741824 []) :=
  (claim_C1_create_idempotent []
    [(["tmp", "csi", "hostpath", "v1"], Entry.dir), (["tmp", "csi", "hostpath"], Entry.dir),
     (["tmp", "csi"], Entry.dir), (["tmp"], Entry.dir)]
    { name := "v1", capacityRange := some ⟨1073741824, 0⟩, parameters := [] }
    { name := "v1", capacityRange := some ⟨1073741824, 0⟩, parameters := [] }
    ⟨1073741824, 0⟩ ⟨1073741824, 0⟩ "v1" 1073741824 [] rfl rfl rfl rfl).2.2.2

/-- C2 (amended): none of the four mutating handlers acquires any lock —
their action traces contain no lock operation in any state or branch,
because the code has no synchronisation primitive at all; nevertheless,
two CreateVolume calls with the same request executed one after the
other (either serialization of two concurrent identical calls) leave
exactly one backing directory and both return the same volume id,
because the id is the requested name and directory creation is
idempotent. -/
theorem claim_C2_no_locks (fs fs1 : FS) (req : CreateVolumeRequest) (cr : CapacityRange)
    (id : String) (c : Int) (ps : List (String × String))
    (hcr : req.capacityRange = some cr)
    (habs : fsLookup fs (parsePath (basePath ++ req.name)) = none)
    (h1 : createVolume fs req = (fs1, CreateVolumeResult.ok id c ps)) :
    ((∀ r, (createVolumeEffects r).filter Effect.isLock = []) ∧
     (∀ v, (deleteVolumeEffects v).filter Effect.isLock = []) ∧
     (∀ g r, (nodePublishVolumeEffects g r).filter Effect.isLock = []) ∧
     (∀ g r, (nodeUnpublishVolumeEffects g r).filter Effect.isLock = [])) ∧
    id = req.name ∧
    createVolume fs1 req = (fs1, CreateVolumeResult.ok req.name cr.requiredBytes req.parameters) ∧
    countKey fs1 (parsePath (basePath ++ req.name)) = 1 := by
  rcases hmk : mkdirAll fs (parsePath (basePath ++ req.name)) with em | fs2
  · simp [createVolume, hmk] at h1
  · simp [createVolume, hmk, hcr] at h1
    obtain ⟨hfs, hid, hc, hps⟩ := h1
    have hne : parsePath (basePath ++ req.name) ≠ [] := by
      rw [parsePath_base_append]
      exact List.cons_ne_nil _ _
    have hcount : countKey fs1 (parsePath (basePath ++ req.name)) = 1 := by
      rw [← hfs]
      rw [mkdirAll_countKey_self hmk habs hne, fsLookup_eq_none_iff.mp habs]
    have hstat : stat fs1 (parsePath (basePath ++ req.name)) = StatRes.found Entry.dir := by
      rw [← hfs]
      exact mkdirAll_ok_stat hmk
    have hmk2 : mkdirAll fs1 (parsePath (basePath ++ req.name)) = Except.ok fs1 :=
      mkdirAll_of_stat_dir hstat
    refine ⟨⟨createVolumeEffects_lockFree, deleteVolumeEffects_lockFree,
      nodePublishVolumeEffects_lockFree, nodeUnpublishVolumeEffects_lockFree⟩,
      hid.symm, ?_, hcount⟩
    simp [createVolume, hmk2, hcr]

/-- C2 counterexample: at concrete inputs, none of the four mutating
handlers performs a single lock acquisition or release — refuting that
each acquires an exclusive per-volume lock before touching state. -/
theorem claim_C2_counterexample :
    ((createVolumeEffects
        { name := "v1", capacityRange := some ⟨1073741824, 0⟩, parameters := [] }).filter
      Effect.isLock = [] ∧
     (deleteVolumeEffects "v1").filter Effect.isLock = []) ∧
    ((nodePublishVolumeEffects
        [(["tmp", "csi", "hostpath", "v1"], Entry.dir), (["mnt"], Entry.dir)]
        { volumeId := "v1", targetPath := "/mnt/a" }).filter Effect.isLock = [] ∧
     (nodeUnpublishVolumeEffects
        [(["mnt", "a"], Entry.symlink "/tmp/csi/hostpath/v1")]
        { volumeId := "v1", targetPath := "/mnt/a" }).filter Effect.isLock = []) := by
  exact ⟨⟨rfl, rfl⟩, ⟨rfl, rfl⟩⟩

/-- C2 witness: two identical CreateVolume calls for v1 in sequence —
the surviving serialization content of two concurrent calls — leave one
backing directory and both return id v1. -/
theorem claim_C2_witness :
    createVolume
        [(["tmp", "csi", "hostpath", "v1"], Entry.dir), (["tmp", "csi", "hostpath"], Entry.dir),
         (["tmp", "csi"], Entry.dir), (["tmp"], Entry.dir)]
        { name := "v1", capacityRange := some ⟨1073741824, 0⟩, parameters := [] } =
      ([(["tmp", "csi", "hostpath", "v1"], Entry.dir), (["tmp", "csi", "hostpath"], Entry.dir),
        (["tmp", "csi"], Entry.dir), (["tmp"], Entry.dir)],
       CreateVolumeResult.ok "v1" 1073741824 []) ∧
    countKey
        [(["tmp", "csi", "hostpath", "v1"], Entry.dir), (["tmp", "csi", "hostpath"], Entry.dir),
         (["tmp", "csi"], Entry.dir), (["tmp"], Entry.dir)]
        (parsePath (basePath ++ "v1")) = 1 := by
  have h := claim_C2_no_locks []
    [(["tmp", "csi", "hostpath", "v1"], Entry.dir), (["tmp", "csi", "hostpath"], Entry.dir),
     (["tmp", "csi"], Entry.dir), (["tmp"], Entry.dir)]
    { name := "v1", capacityRange := some ⟨1073741824, 0⟩, parameters := [] }
    ⟨1073741824, 0⟩ "v1" 1073741824 [] rfl rfl rfl
  exact ⟨h.2.2.1, h.2.2.2⟩

/-- C6: NodePublishVolume idempotence: (i) if the target already exists
as a link pointing at the correct backing path, the call succeeds
without modifying anything; (ii) if the target exists but is wrong (a
stale link or a plain file/directory), it is removed and replaced by the
correct link; (iii) two calls in a row with the same volume and target
both succeed and leave exactly one link at the target, pointing at the
volume's backing path. -/
theorem claim_C6_publish_idempotent (fs : FS) (volumeId targetPath : String) :
    (stat fs (parsePath (basePath ++ volumeId)) ≠ StatRes.notExist →
     stat fs (filepathDir targetPath) = StatRes.found Entry.dir →
     fsLookup fs (parsePath targetPath) = some (Entry.symlink (basePath ++ volumeId)) →
     nodePublishVolume fs { volumeId := volumeId, targetPath := targetPath } =
       (fs, NodeResult.ok)) ∧
    (∀ e, stat fs (parsePath (basePath ++ volumeId)) ≠ StatRes.notExist →
     stat fs (filepathDir targetPath) = StatRes.found Entry.dir →
     fsLookup fs (parsePath targetPath) = some e →
     e ≠ Entry.symlink (basePath ++ volumeId) →
     nodePublishVolume fs { volumeId := volumeId, targetPath := targetPath } =
       ((parsePath targetPath, Entry.symlink (basePath ++ volumeId)) ::
          removeAll fs (parsePath targetPath), NodeResult.ok)) ∧
    (fsLookup fs (parsePath (basePath ++ volumeId)) = some Entry.dir →
     fsLookup fs ((parsePath targetPath).dropLast) = some Entry.dir →
     parsePath targetPath ≠ [] →
     endsWithSlash targetPath = false →
     (parsePath targetPath).isPrefixOf (parsePath (basePath ++ volumeId)) = false →
     countKey fs (parsePath targetPath) ≤ 1 →
     ∃ fs1,
       nodePublishVolume fs { volumeId := volumeId, targetPath := targetPath } =
         (fs1, NodeResult.ok) ∧
       nodePublishVolume fs1 { volumeId := volumeId, targetPath := targetPath } =
         (fs1, NodeResult.ok) ∧
       fsLookup fs1 (parsePath targetPath) = some (Entry.symlink (basePath ++ volumeId)) ∧
       countKey fs1 (parsePath targetPath) = 1) := by
  refine ⟨?_, ?_, ?_⟩
  · intro hsrc hpar hlink
    have hmk := mkdirAll_of_stat_dir hpar
    simp [nodePublishVolume, hsrc, hmk, lstat, hlink]
  · intro e hsrc hpar hlook hne
    have hmk := mkdirAll_of_stat_dir hpar
    have hrm := fsLookup_removeAll_of_under fs (isPrefixOf_self_true (parsePath targetPath))
    rcases e with _ | _ | t
    · simp [nodePublishVolume, hsrc, hmk, lstat, hlook, mkSymlink, hrm]
    · simp [nodePublishVolume, hsrc, hmk, lstat, hlook, mkSymlink, hrm]
    · have htneq : t ≠ basePath ++ volumeId := fun hh => hne (by rw [hh])
      simp [nodePublishVolume, hsrc, hmk, lstat, hlook, htneq, mkSymlink, hrm]
  · intro hsrc hpar htne hsl hnp hwf
    have hfd : filepathDir targetPath = (parsePath targetPath).dropLast := by
      simp [filepathDir, hsl]
    have hsne : stat fs (parsePath (basePath ++ volumeId)) ≠ StatRes.notExist := by
      simp [stat_of_lookup_dir hsrc]
    have hmk : mkdirAll fs (filepathDir targetPath) = Except.ok fs := by
      rw [hfd]
      exact mkdirAll_of_stat_dir (stat_of_lookup_dir hpar)
    have htpsp : parsePath targetPath ≠ parsePath (basePath ++ volumeId) :=
      ne_of_isPrefixOf_false hnp
    have htpd : parsePath targetPath ≠ (parsePath targetPath).dropLast :=
      ne_dropLast_of_ne_nil htne
    rcases hl : fsLookup fs (parsePath targetPath) with _ | en
    · refine ⟨(parsePath targetPath, Entry.symlink (basePath ++ volumeId)) :: fs,
        ?_, ?_, ?_, ?_⟩
      · simp [nodePublishVolume, hsne, hmk, lstat, hl, mkSymlink]
      · have hlook1 :
            fsLookup ((parsePath targetPath, Entry.symlink (basePath ++ volumeId)) :: fs)
              (parsePath targetPath) = some (Entry.symlink (basePath ++ volumeId)) := by
          simp [fsLookup]
        have hsrc1 :
            fsLookup ((parsePath targetPath, Entry.symlink (basePath ++ volumeId)) :: fs)
              (parsePath (basePath ++ volumeId)) = some Entry.dir := by
          simp only [fsLookup, if_neg htpsp]
          exact hsrc
        have hpar1 :
            fsLookup ((parsePath targetPath, Entry.symlink (basePath ++ volumeId)) :: fs)
              ((parsePath targetPath).dropLast) = some Entry.dir := by
          simp only [fsLookup, if_neg htpd]
          exact hpar
        have hmk2 :
            mkdirAll ((parsePath targetPath, Entry.symlink (basePath ++ volumeId)) :: fs)
              (filepathDir targetPath) =
              Except.ok ((parsePath targetPath, Entry.symlink (basePath ++ volumeId)) :: fs) := by
          rw [hfd]
          exact mkdirAll_of_stat_dir (stat_of_lookup_dir hpar1)
        simp [nodePublishVolume, stat_of_lookup_dir hsrc1, hmk2, lstat, hlook1]
      · simp [fsLookup]
      · rw [countKey_cons, if_pos rfl, fsLookup_eq_none_iff.mp hl]
    · by_cases hcorrect : en = Entry.symlink (basePath ++ volumeId)
      · subst hcorrect
        refine ⟨fs, ?_, ?_, hl, ?_⟩
        · simp [nodePublishVolume, hsne, hmk, lstat, hl]
        · simp [nodePublishVolume, hsne, hmk, lstat, hl]
        · have h0 : countKey fs (parsePath targetPath) ≠ 0 := by
            intro h0
            have hn := fsLookup_eq_none_iff.mpr h0
            rw [hn] at hl
            cases hl
          omega
      · have hrm := fsLookup_removeAll_of_under fs (isPrefixOf_self_true (parsePath targetPath))
        refine ⟨(parsePath targetPath, Entry.symlink (basePath ++ volumeId)) ::
          removeAll fs (parsePath targetPath), ?_, ?_, ?_, ?_⟩
        · rcases en with _ | _ | t
          · simp [nodePublishVolume, hsne, hmk, lstat, hl, mkSymlink, hrm]
          · simp [nodePublishVolume, hsne, hmk, lstat, hl, mkSymlink, hrm]
          · have htneq : t ≠ basePath ++ volumeId := fun hh => hcorrect (by rw [hh])
            simp [nodePublishVolume, hsne, hmk, lstat, hl, htneq, mkSymlink, hrm]
        · have hlook1 :
              fsLookup ((parsePath targetPath, Entry.symlink (basePath ++ volumeId)) ::
                  removeAll fs (parsePath targetPath))
                (parsePath targetPath) = some (Entry.symlink (basePath ++ volumeId)) := by
            simp [fsLookup]
          have hsrc1 :
              fsLookup ((parsePath targetPath, Entry.symlink (basePath ++ volumeId)) ::
                  removeAll fs (parsePath targetPath))
                (parsePath (basePath ++ volumeId)) = some Entry.dir := by
            simp only [fsLookup, if_neg htpsp]
            rw [fsLookup_removeAll_of_not fs hnp]
            exact hsrc
          have hpar1 :
              fsLookup ((parsePath targetPath, Entry.symlink (basePath ++ volumeId)) ::
                  removeAll fs (parsePath targetPath))
                ((parsePath targetPath).dropLast) = some Entry.dir := by
            simp only [fsLookup, if_neg htpd]
            rw [fsLookup_removeAll_of_not fs (isPrefixOf_dropLast_false htne)]
            exact hpar
          have hmk2 :
              mkdirAll ((parsePath targetPath, Entry.symlink (basePath ++ volumeId)) ::
                  removeAll fs (parsePath targetPath))
                (filepathDir targetPath) =
                Except.ok ((parsePath targetPath, Entry.symlink (basePath ++ volumeId)) ::
                  removeAll fs (parsePath targetPath)) := by
            rw [hfd]
            exact mkdirAll_of_stat_dir (stat_of_lookup_dir hpar1)
          simp [nodePublishVolume, stat_of_lookup_dir hsrc1, hmk2, lstat, hlook1]
        · simp [fsLookup]
        · rw [countKey_cons, if_pos rfl, countKey_removeAll_self]

/-- C6 witness: publishing v1 to /mnt/a twice, starting from a
filesystem where the backing directory and /mnt exist and /mnt/a does
not: both calls succeed and exactly one link remains at /mnt/a,
pointing at the backing path. -/
theorem claim_C6_witness :
    ∃ fs1,
      nodePublishVolume
          [(["tmp", "csi", "hostpath", "v1"], Entry.dir), (["tmp", "csi", "hostpath"], Entry.dir),
           (["tmp", "csi"], Entry.dir), (["tmp"], Entry.dir), (["mnt"], Entry.dir)]
          { volumeId := "v1", targetPath := "/mnt/a" } = (fs1, NodeResult.ok) ∧
      nodePublishVolume fs1 { volumeId := "v1", targetPath := "/mnt/a" } =
        (fs1, NodeResult.ok) ∧
      fsLookup fs1 (parsePath "/mnt/a") = some (Entry.symlink (basePath ++ "v1")) ∧
      countKey fs1 (parsePath "/mnt/a") = 1 :=
  (claim_C6_publish_idempotent
    [(["tmp", "csi", "hostpath", "v1"], Entry.dir), (["tmp", "csi", "hostpath"], Entry.dir),
     (["tmp", "csi"], Entry.dir), (["tmp"], Entry.dir), (["mnt"], Entry.dir)]
    "v1" "/mnt/a").2.2 rfl rfl (by decide) rfl (by decide) (by decide)

end HostPathCSI
